import Mathlib

/-!
Shallow embedding of the `ghcpsdknotify` repository's file-selection and
spaced-repetition engines, with theorems settling the frozen claims.

Source files embedded:
- `app/file_selector.py`   — interest scoring and hybrid file selection
- `app/spaced_repetition.py` — simplified SM-2 level scheduler
- `app/state_manager.py`   — state dataclasses and read accessors
- `app/folder_scanner.py`  — the `ScannedFile` / `FileMetadata` records

Modelling conventions:
- Python `datetime` values are modelled at second precision as a pair of a
  day number (days since 1970-01-01, proleptic Gregorian) and the seconds
  elapsed within that day.  `timedelta.days` is floor division by 86400,
  matching CPython.
- Python `str` comparison (`<=`) is lexicographic on code points and is
  modelled by `pyStrLe`; `str.lower()` by `pyToLower` (the repository only
  compares ASCII keywords).
- Python integer division and modulo appear only with positive divisors,
  where Python's semantics coincide with `Int.fdiv` / `Int.emod`.
- `random.choices` / `random.sample` are non-deterministic primitives; they
  are modelled by an oracle record, and theorems quantify over every oracle
  satisfying the primitive's documented contract.
- Fallible code (list indexing that can raise `IndexError`, date parsing
  that can raise `ValueError`) returns `Option`.
-/

namespace GhcpSdkNotify

/-! ## Calendar model (Python `datetime`, second precision) -/

/-- Proleptic-Gregorian leap-year test, as in Python's `calendar`/`datetime`. -/
def isLeapYear (y : Int) : Bool :=
  Int.emod y 4 == 0 && (Int.emod y 100 != 0 || Int.emod y 400 == 0)

/-- Number of days in month `m` of year `y`. -/
def daysInMonth (y m : Int) : Int :=
  if m == 2 then (if isLeapYear y then 29 else 28)
  else if m == 4 || m == 6 || m == 9 || m == 11 then 30
  else 31

/-- Civil date to days since 1970-01-01 (proleptic Gregorian). -/
def civilToDays (y m d : Int) : Int :=
  let y2 := if m ≤ 2 then y - 1 else y
  let era := Int.fdiv y2 400
  let yoe := y2 - era * 400
  let mp := if m > 2 then m - 3 else m + 9
  let doy := Int.fdiv (153 * mp + 2) 5 + d - 1
  let doe := yoe * 365 + Int.fdiv yoe 4 - Int.fdiv yoe 100 + doy
  era * 146097 + doe - 719468

/-- Days since 1970-01-01 back to a civil date `(year, month, day)`. -/
def daysToCivil (z0 : Int) : Int × Int × Int :=
  let z := z0 + 719468
  let era := Int.fdiv z 146097
  let doe := z - era * 146097
  let yoe := Int.fdiv (doe - Int.fdiv doe 1460 + Int.fdiv doe 36524 - Int.fdiv doe 146096) 365
  let y := yoe + era * 400
  let doy := doe - (365 * yoe + Int.fdiv yoe 4 - Int.fdiv yoe 100)
  let mp := Int.fdiv (5 * doy + 2) 153
  let d := doy - Int.fdiv (153 * mp + 2) 5 + 1
  let m := if mp < 10 then mp + 3 else mp - 9
  (if m ≤ 2 then y + 1 else y, m, d)

/-- A Python `datetime`, at second precision: a day number (days since
1970-01-01) and the number of seconds elapsed within that day. -/
structure PyDateTime where
  days : Int
  sod : Nat
deriving DecidableEq, Repr

/-- Total seconds since the epoch. -/
def PyDateTime.toSeconds (t : PyDateTime) : Int :=
  t.days * 86400 + (t.sod : Int)

/-- `datetime(y, m, d)` — midnight of the given civil date. -/
def mkDatetime (y m d : Int) : PyDateTime :=
  { days := civilToDays y m d, sod := 0 }

/-- Python string `<=` (lexicographic on code points) on character lists. -/
def charListLe : List Char → List Char → Bool
  | [], _ => true
  | _ :: _, [] => false
  | a :: as, b :: bs =>
    if a.toNat < b.toNat then true
    else if b.toNat < a.toNat then false
    else charListLe as bs

/-- Python string `<=`: lexicographic comparison on code points. -/
def pyStrLe (a b : String) : Bool := charListLe a.data b.data

/-- Python `str.lower()` (the repository only lowercases ASCII keywords). -/
def pyToLower (s : String) : String := String.mk (s.data.map Char.toLower)

/-- Numeric value of a decimal digit character. -/
def digitVal (c : Char) : Nat := c.toNat - 48

/-- Parse a strict `YYYY-MM-DD` string into a valid civil date.  Models the
successful outcomes of `datetime.strptime(s, "%Y-%m-%d")` on zero-padded
input; any other string is a parse failure (`ValueError` in Python). -/
def parseYmd (s : String) : Option (Int × Int × Int) :=
  match s.data with
  | [c1, c2, c3, c4, c5, c6, c7, c8, c9, c10] =>
    if c5 == '-' && c8 == '-' && c1.isDigit && c2.isDigit && c3.isDigit && c4.isDigit
        && c6.isDigit && c7.isDigit && c9.isDigit && c10.isDigit then
      let y : Int := ((digitVal c1 * 1000 + digitVal c2 * 100 + digitVal c3 * 10 + digitVal c4 : Nat) : Int)
      let m : Int := ((digitVal c6 * 10 + digitVal c7 : Nat) : Int)
      let d : Int := ((digitVal c9 * 10 + digitVal c10 : Nat) : Int)
      if 1 ≤ y && y ≤ 9999 && 1 ≤ m && m ≤ 12 && 1 ≤ d && d ≤ daysInMonth y m then
        some (y, m, d)
      else none
    else none
  | _ => none

/-- `datetime.strptime(s, "%Y-%m-%d")` — midnight of the parsed date, or a
parse failure. -/
def strptimeYmd (s : String) : Option PyDateTime :=
  (parseYmd s).map (fun ymd => mkDatetime ymd.1 ymd.2.1 ymd.2.2)

/-- Render a nonnegative integer zero-padded to width `w`. -/
def padNum (w : Nat) (n : Int) : String :=
  let s := toString n.toNat
  String.mk (List.replicate (w - s.length) '0') ++ s

/-- Format a civil date triple as `YYYY-MM-DD`. -/
def formatCivil (c : Int × Int × Int) : String :=
  padNum 4 c.1 ++ "-" ++ padNum 2 c.2.1 ++ "-" ++ padNum 2 c.2.2

/-- `dt.strftime("%Y-%m-%d")` — the calendar date of `dt`, formatted. -/
def strftimeYmd (t : PyDateTime) : String :=
  formatCivil (daysToCivil t.days)

/-- Python list indexing `l[i]` with negative-index wrap-around; `none` is an
`IndexError`. -/
def pyIndex (l : List Int) (i : Int) : Option Int :=
  if 0 ≤ i then l[i.toNat]?
  else if 0 ≤ (l.length : Int) + i then l[((l.length : Int) + i).toNat]?
  else none

/-! ## `app/state_manager.py` — state dataclasses and read accessors -/

/-- One quiz answer record (`QuizResult`). -/
structure QuizResult where
  date : String
  q1_correct : Bool
  q2_evaluation : String
  pattern : String
deriving DecidableEq, Repr

/-- Per-topic quiz history (`QuizHistoryEntry`); the dataclass defaults are
`last_quizzed_at=""`, `interval_days=1`, `level=0`, `next_quiz_at=""`,
`results=[]`. -/
structure QuizHistoryEntry where
  last_quizzed_at : String
  interval_days : Int
  level : Int
  next_quiz_at : String
  results : List QuizResult
deriving DecidableEq, Repr

/-- An issued-but-unanswered quiz (`PendingQuiz`). -/
structure PendingQuiz where
  briefing_file : String
  topic_key : String
  pattern : String
  created_at : String
deriving DecidableEq, Repr

/-- Application state (`AppState`).  The Python `dict` `quiz_history` is an
insertion-ordered map with unique keys; it is modelled as an association
list. -/
structure AppState where
  run_count_a : Int
  run_count_b : Int
  last_run_at : String
  output_folder_path : String
  random_pick_history : List String
  pending_quizzes : List PendingQuiz
  quiz_history : List (String × QuizHistoryEntry)
deriving DecidableEq, Repr

/-- `StateManager.get_quiz_history`: a pure read of
`self._state.quiz_history.get(topic_key)`.  Modelled in state-passing style;
the state component of the result is the (unchanged) store. -/
def get_quiz_history (s : AppState) (topic_key : String) :
    Option QuizHistoryEntry × AppState :=
  (s.quiz_history.lookup topic_key, s)

/-! ## `app/spaced_repetition.py` -/

/-- Default interval table (`_DEFAULT_INTERVALS`). -/
def _DEFAULT_INTERVALS : List Int := [1, 3, 7, 14, 30, 60]

/-- Spaced-repetition configuration (`SpacedRepetitionConfig`). -/
structure SpacedRepetitionConfig where
  enabled : Bool
  max_level : Int
  intervals : List Int
deriving DecidableEq, Repr

/-- `calculate_next_level`: next level from a quiz outcome. -/
def calculate_next_level (q1_correct : Bool) (q2_evaluation : String)
    (current_level : Int) (max_level : Int) : Int :=
  if !q1_correct || q2_evaluation == "poor" then 0
  else if q1_correct && q2_evaluation == "good" then min (current_level + 1) max_level
  else current_level

/-- `get_interval_days`: interval-table entry at `min(level, len - 1)`; the
`intervals` argument may be `None` (falls back to the default table). -/
def get_interval_days (level : Int) (intervals : Option (List Int)) : Option Int :=
  let iv := intervals.getD _DEFAULT_INTERVALS
  pyIndex iv (min level ((iv.length : Int) - 1))

/-- `calculate_next_quiz_date`: `now + timedelta(days=interval)` formatted as
`YYYY-MM-DD`. -/
def calculate_next_quiz_date (level : Int) (intervals : Option (List Int))
    (now : PyDateTime) : Option String :=
  let iv := intervals.getD _DEFAULT_INTERVALS
  match pyIndex iv (min level ((iv.length : Int) - 1)) with
  | none => none
  | some interval_days =>
      some (strftimeYmd { days := now.days + interval_days, sod := now.sod })

/-- One element of the list built by `get_due_topics`. -/
structure DueTopic where
  topic_key : String
  level : Int
  interval_days : Int
  last_result : Option QuizResult
deriving DecidableEq, Repr

/-- The due record built for one `quiz_history` item. -/
def mkDueTopic (kv : String × QuizHistoryEntry) : DueTopic :=
  { topic_key := kv.1
    level := kv.2.level
    interval_days := kv.2.interval_days
    last_result := kv.2.results.getLast? }

/-- `get_due_topics`: entries whose `next_quiz_at` is truthy (non-empty) and
`<= today` (Python string comparison). -/
def get_due_topics (s : AppState) (today : String) : List DueTopic :=
  s.quiz_history.filterMap (fun kv =>
    if kv.2.next_quiz_at ≠ "" && pyStrLe kv.2.next_quiz_at today then
      some (mkDueTopic kv)
    else none)

/-- The update-information dictionary returned by `update_after_scoring`. -/
structure SRUpdateInfo where
  new_level : Int
  new_interval_days : Int
  next_quiz_at : String
  level_change : String
deriving DecidableEq, Repr

/-- `update_after_scoring`: computes the new level, interval and next date
from the read-only history lookup.  State-passing; the second component is
the store after the call.  The `Option` is `none` when `get_interval_days`
or `calculate_next_quiz_date` raises (`IndexError` on an empty interval
table). -/
def update_after_scoring (s : AppState) (topic_key : String) (q1_correct : Bool)
    (q2_evaluation : String) (sr_config : SpacedRepetitionConfig)
    (now : PyDateTime) : Option SRUpdateInfo × AppState :=
  let gh := get_quiz_history s topic_key
  let s1 := gh.2
  let current_level := match gh.1 with
    | some e => e.level
    | none => 0
  let new_level := calculate_next_level q1_correct q2_evaluation current_level
    sr_config.max_level
  match get_interval_days new_level (some sr_config.intervals),
      calculate_next_quiz_date new_level (some sr_config.intervals) now with
  | some nid, some nqa =>
      let level_change :=
        if new_level > current_level then "upgrade"
        else if new_level < current_level then "downgrade"
        else "same"
      (some { new_level := new_level
              new_interval_days := nid
              next_quiz_at := nqa
              level_change := level_change }, s1)
  | _, _ => (none, s1)

/-! ## `app/folder_scanner.py` — scanned-file records (fields the selector reads) -/

/-- `FileMetadata` (the fields read by the selector; the remaining fields of
the dataclass are inert for scoring and selection). -/
structure FileMetadata where
  relative_path : String
  modified_at : Option PyDateTime
  priority : String
  deadline : String
  unchecked_count : Nat
deriving DecidableEq, Repr

/-- `ScannedFile`: metadata plus body text. -/
structure ScannedFile where
  metadata : FileMetadata
  content : String
deriving DecidableEq, Repr

/-- The relative path of a scanned file. -/
def relpath (f : ScannedFile) : String := f.metadata.relative_path

/-! ## `app/file_selector.py` -/

/-- Scoring constants from the head of `file_selector.py`. -/
def _SCORE_MODIFIED_TODAY : Int := 50

/-- `_SCORE_MODIFIED_WEEK`. -/
def _SCORE_MODIFIED_WEEK : Int := 30

/-- `_SCORE_MODIFIED_MONTH`. -/
def _SCORE_MODIFIED_MONTH : Int := 10

/-- `_SCORE_PRIORITY_HIGH`. -/
def _SCORE_PRIORITY_HIGH : Int := 30

/-- `_SCORE_PRIORITY_MEDIUM`. -/
def _SCORE_PRIORITY_MEDIUM : Int := 15

/-- `_SCORE_DEADLINE_3DAYS`. -/
def _SCORE_DEADLINE_3DAYS : Int := 25

/-- `_SCORE_DEADLINE_7DAYS`. -/
def _SCORE_DEADLINE_7DAYS : Int := 15

/-- `_SCORE_HAS_UNCHECKED`. -/
def _SCORE_HAS_UNCHECKED : Int := 10

/-- `_NORMAL_TOP_COUNT`. -/
def _NORMAL_TOP_COUNT : Nat := 17

/-- `_NORMAL_RANDOM_COUNT`. -/
def _NORMAL_RANDOM_COUNT : Nat := 3

/-- `_DISCOVERY_TOP_COUNT`. -/
def _DISCOVERY_TOP_COUNT : Nat := 5

/-- `_DISCOVERY_RANDOM_COUNT`. -/
def _DISCOVERY_RANDOM_COUNT : Nat := 15

/-- `_OLD_FILE_THRESHOLD_DAYS`. -/
def _OLD_FILE_THRESHOLD_DAYS : Int := 30

/-- `_OLD_FILE_WEIGHT_MULTIPLIER` (3.0). -/
def _OLD_FILE_WEIGHT_MULTIPLIER : ℚ := 3

/-- Seconds per day; `timedelta(days=1)` at second precision. -/
def _SECONDS_PER_DAY : Int := 86400

/-- `ScoredFile`: a scanned file with its score and breakdown (the Python
insertion-ordered `dict` breakdown is an association list). -/
structure ScoredFile where
  file : ScannedFile
  score : Int
  score_breakdown : List (String × Int)
deriving DecidableEq, Repr

/-- `SelectionResult`. -/
structure SelectionResult where
  selected_files : List ScannedFile
  top_files : List ScannedFile
  random_files : List ScannedFile
  is_discovery : Bool
  total_candidates : Nat
deriving DecidableEq, Repr

/-- Section S1 of `calculate_score`: recency of `modified_at`.  The `delta`
comparison is an exact `timedelta` comparison at second precision. -/
def scoreRecency (meta : FileMetadata) (now : PyDateTime) : Int × List (String × Int) :=
  match meta.modified_at with
  | some m =>
      let delta := now.toSeconds - m.toSeconds
      if delta ≤ _SECONDS_PER_DAY then
        (_SCORE_MODIFIED_TODAY, [("modified_today", _SCORE_MODIFIED_TODAY)])
      else if delta ≤ 7 * _SECONDS_PER_DAY then
        (_SCORE_MODIFIED_WEEK, [("modified_week", _SCORE_MODIFIED_WEEK)])
      else if delta ≤ 30 * _SECONDS_PER_DAY then
        (_SCORE_MODIFIED_MONTH, [("modified_month", _SCORE_MODIFIED_MONTH)])
      else (0, [])
  | none => (0, [])

/-- Section S3 of `calculate_score`: `priority` keyword (lower-cased). -/
def scorePriorityOf (meta : FileMetadata) : Int × List (String × Int) :=
  let prio := pyToLower meta.priority
  if prio == "high" then (_SCORE_PRIORITY_HIGH, [("priority_high", _SCORE_PRIORITY_HIGH)])
  else if prio == "medium" then (_SCORE_PRIORITY_MEDIUM, [("priority_medium", _SCORE_PRIORITY_MEDIUM)])
  else (0, [])

/-- Section S4 of `calculate_score`: deadline proximity.  `days_until` is
`(strptime(deadline) - now).days`, floor division by 86400 seconds as in
Python's `timedelta.days`; a parse failure contributes nothing. -/
def scoreDeadline (meta : FileMetadata) (now : PyDateTime) : Int × List (String × Int) :=
  if meta.deadline ≠ "" then
    match strptimeYmd meta.deadline with
    | some deadline_dt =>
        let days_until := Int.fdiv (deadline_dt.toSeconds - now.toSeconds) _SECONDS_PER_DAY
        if 0 ≤ days_until ∧ days_until ≤ 3 then
          (_SCORE_DEADLINE_3DAYS, [("deadline_3days", _SCORE_DEADLINE_3DAYS)])
        else if 0 ≤ days_until ∧ days_until ≤ 7 then
          (_SCORE_DEADLINE_7DAYS, [("deadline_7days", _SCORE_DEADLINE_7DAYS)])
        else (0, [])
    | none => (0, [])
  else (0, [])

/-- Section S6 of `calculate_score`: open checkboxes. -/
def scoreChecklist (meta : FileMetadata) : Int × List (String × Int) :=
  if meta.unchecked_count > 0 then (_SCORE_HAS_UNCHECKED, [("has_unchecked", _SCORE_HAS_UNCHECKED)])
  else (0, [])

/-- `calculate_score`: sum of the four scoring sections, with the breakdown
entries appended in source order. -/
def calculate_score (file : ScannedFile) (now : PyDateTime) : ScoredFile :=
  let meta := file.metadata
  { file := file
    score := (scoreRecency meta now).1 + (scorePriorityOf meta).1
      + (scoreDeadline meta now).1 + (scoreChecklist meta).1
    score_breakdown := (scoreRecency meta now).2 ++ (scorePriorityOf meta).2
      ++ (scoreDeadline meta now).2 ++ (scoreChecklist meta).2 }

/-- `_calculate_random_weights`: one weight per file, higher for files not
modified for 30 or more days (weights are reals in Python; modelled as
rationals). -/
def _calculate_random_weights (files : List ScannedFile) (now : PyDateTime) : List ℚ :=
  files.map (fun f =>
    match f.metadata.modified_at with
    | some m =>
        let days_since := Int.fdiv (now.toSeconds - m.toSeconds) _SECONDS_PER_DAY
        if days_since ≥ _OLD_FILE_THRESHOLD_DAYS then
          (days_since : ℚ) * _OLD_FILE_WEIGHT_MULTIPLIER
        else max 1 (days_since : ℚ)
    | none => 15)

/-- `is_discovery_round`. -/
def is_discovery_round (run_count : Int) (discovery_interval : Int) : Bool :=
  if discovery_interval ≤ 0 then false
  else decide (0 < run_count) && (Int.emod run_count discovery_interval == 0)

/-- Top-pick count for a normal or discovery round. -/
def topCountFor (discovery : Bool) : Nat :=
  if discovery then _DISCOVERY_TOP_COUNT else _NORMAL_TOP_COUNT

/-- Random-pick count for a normal or discovery round. -/
def randomCountFor (discovery : Bool) : Nat :=
  if discovery then _DISCOVERY_RANDOM_COUNT else _NORMAL_RANDOM_COUNT

/-- The `random_candidates` list of `select_files`: files after the top
region with recently-random-picked paths excluded, re-extended with the
excluded ones (minus the top region) when the exclusion leaves fewer than
`random_count` candidates. -/
def randomCandidatesOf (sorted : List ScoredFile) (top_count : Nat)
    (history : List String) (random_count : Nat) : List ScannedFile :=
  let top_paths := (sorted.take top_count).map (fun sf => relpath sf.file)
  let base := ((sorted.drop top_count).filter
    (fun sf => !(history.contains (relpath sf.file)))).map (fun sf => sf.file)
  if base.length < random_count then
    base ++ ((sorted.drop top_count).filter
      (fun sf => history.contains (relpath sf.file)
        && !(top_paths.contains (relpath sf.file)))).map (fun sf => sf.file)
  else base

/-- The de-duplication loop over `random.choices` output: keep the first
occurrence of each relative path (`seen` accumulates paths already kept). -/
def dedupByPathAux (seen : List String) : List ScannedFile → List ScannedFile
  | [] => []
  | f :: rest =>
    if seen.contains (relpath f) then dedupByPathAux seen rest
    else f :: dedupByPathAux (relpath f :: seen) rest

/-- De-duplicate a pick list by relative path, keeping first occurrences. -/
def dedupByPath (l : List ScannedFile) : List ScannedFile :=
  dedupByPathAux [] l

/-- The post-processing of a `random.choices` outcome `picks`: de-duplicate
by path, then top up from the not-yet-seen candidates outside the top region
until `actual_count` files are reached (or candidates run out). -/
def randomFilesChoices (random_candidates : List ScannedFile) (top_paths : List String)
    (actual_count : Nat) (picks : List ScannedFile) : List ScannedFile :=
  let unique := dedupByPath picks
  if unique.length < actual_count then
    let seen := picks.map relpath
    let remaining := random_candidates.filter
      (fun c => !(seen.contains (relpath c)) && !(top_paths.contains (relpath c)))
    unique ++ remaining.take (actual_count - unique.length)
  else unique

/-- The non-deterministic sampling primitives of the `random` module, as an
oracle: `choices population weights k` models `random.choices(population,
weights=weights, k=k)` and `sample population k` models
`random.sample(population, k)`. -/
structure RandomOracle where
  choices : List ScannedFile → List ℚ → Nat → List ScannedFile
  sample : List ScannedFile → Nat → List ScannedFile

/-- The documented contract of `random.choices` on a non-empty population:
it returns exactly `k` elements, each drawn from the population. -/
def ChoicesContract (o : RandomOracle) : Prop :=
  ∀ population weights k, population ≠ [] →
    (o.choices population weights k).length = k ∧
    ∀ x ∈ o.choices population weights k, x ∈ population

/-- `select_files`: empty guard, small-vault short-circuit, scoring, stable
descending sort, discovery-round counts capped by `max_files`, top picks,
weighted random picks with history exclusion, de-duplication and top-up, and
the `ValueError` fallback to `random.sample` (reachable only if the weight
total is non-positive). -/
def select_files (files : List ScannedFile) (run_count : Int)
    (discovery_interval : Int) (max_files : Nat)
    (random_pick_history : List String) (now : PyDateTime)
    (oracle : RandomOracle) : SelectionResult :=
  if files = [] then
    { selected_files := [], top_files := [], random_files := []
      is_discovery := false, total_candidates := 0 }
  else if files.length ≤ max_files then
    { selected_files := files, top_files := files, random_files := []
      is_discovery := false, total_candidates := files.length }
  else
    let scored := files.map (fun f => calculate_score f now)
    let sorted := List.mergeSort scored (fun a b => decide (b.score ≤ a.score))
    let discovery := is_discovery_round run_count discovery_interval
    let top_count := min (topCountFor discovery) max_files
    let random_count := min (randomCountFor discovery) (max_files - top_count)
    let top_scored := sorted.take top_count
    let top_files := top_scored.map (fun sf => sf.file)
    let top_paths := top_scored.map (fun sf => relpath sf.file)
    let random_candidates := randomCandidatesOf sorted top_count random_pick_history random_count
    let random_files :=
      if random_candidates ≠ [] ∧ 0 < random_count then
        let weights := _calculate_random_weights random_candidates now
        let actual_count := min random_count random_candidates.length
        if weights.sum ≤ 0 then
          oracle.sample random_candidates (min actual_count random_candidates.length)
        else
          randomFilesChoices random_candidates top_paths actual_count
            (oracle.choices random_candidates weights actual_count)
      else []
    { selected_files := top_files ++ random_files
      top_files := top_files
      random_files := random_files
      is_discovery := discovery
      total_candidates := files.length }

/-- `get_random_picked_paths`: relative paths of the random picks. -/
def get_random_picked_paths (result : SelectionResult) : List String :=
  result.random_files.map relpath

/-! Named stages of the scoring path of `select_files` (the `let`-bound
intermediates of the source, as standalone definitions so theorems can
speak about them). -/

/-- The scored candidates sorted by descending score (stable). -/
def mainSorted (files : List ScannedFile) (now : PyDateTime) : List ScoredFile :=
  List.mergeSort (files.map (fun f => calculate_score f now))
    (fun a b => decide (b.score ≤ a.score))

/-- `top_count` after capping by `max_files`. -/
def mainTopCount (run_count discovery_interval : Int) (max_files : Nat) : Nat :=
  min (topCountFor (is_discovery_round run_count discovery_interval)) max_files

/-- `random_count` after capping by the remaining budget. -/
def mainRandomCount (run_count discovery_interval : Int) (max_files : Nat) : Nat :=
  min (randomCountFor (is_discovery_round run_count discovery_interval))
    (max_files - mainTopCount run_count discovery_interval max_files)

/-- `top_files`: the files of the first `top_count` sorted entries. -/
def mainTopFiles (files : List ScannedFile) (run_count discovery_interval : Int)
    (max_files : Nat) (now : PyDateTime) : List ScannedFile :=
  ((mainSorted files now).take (mainTopCount run_count discovery_interval max_files)).map
    (fun sf => sf.file)

/-- `top_paths`: the relative paths of the top picks. -/
def mainTopPaths (files : List ScannedFile) (run_count discovery_interval : Int)
    (max_files : Nat) (now : PyDateTime) : List String :=
  ((mainSorted files now).take (mainTopCount run_count discovery_interval max_files)).map
    (fun sf => relpath sf.file)

/-- `random_candidates`. -/
def mainCands (files : List ScannedFile) (run_count discovery_interval : Int)
    (max_files : Nat) (hist : List String) (now : PyDateTime) : List ScannedFile :=
  randomCandidatesOf (mainSorted files now)
    (mainTopCount run_count discovery_interval max_files) hist
    (mainRandomCount run_count discovery_interval max_files)

/-- `random_files`: the weighted random picks (guard, `ValueError`
fallback, de-duplication and top-up). -/
def mainRandomFiles (files : List ScannedFile) (run_count discovery_interval : Int)
    (max_files : Nat) (hist : List String) (now : PyDateTime)
    (oracle : RandomOracle) : List ScannedFile :=
  if mainCands files run_count discovery_interval max_files hist now ≠ [] ∧
      0 < mainRandomCount run_count discovery_interval max_files then
    if (_calculate_random_weights (mainCands files run_count discovery_interval max_files hist now) now).sum ≤ 0 then
      oracle.sample (mainCands files run_count discovery_interval max_files hist now)
        (min (min (mainRandomCount run_count discovery_interval max_files)
            (mainCands files run_count discovery_interval max_files hist now).length)
          (mainCands files run_count discovery_interval max_files hist now).length)
    else
      randomFilesChoices (mainCands files run_count discovery_interval max_files hist now)
        (mainTopPaths files run_count discovery_interval max_files now)
        (min (mainRandomCount run_count discovery_interval max_files)
          (mainCands files run_count discovery_interval max_files hist now).length)
        (oracle.choices (mainCands files run_count discovery_interval max_files hist now)
          (_calculate_random_weights (mainCands files run_count discovery_interval max_files hist now) now)
          (min (mainRandomCount run_count discovery_interval max_files)
            (mainCands files run_count discovery_interval max_files hist now).length))
  else []

/-! ## Claim statements -/

/-- Statement of claim C1: the selection invariant of `select_files` —
`selected = top ++ random`, no relative path on both sides (nor twice among
the random picks), and at most `max_files` selections. -/
def C1Statement (r : SelectionResult) (max_files : Nat) : Prop :=
  r.selected_files = r.top_files ++ r.random_files ∧
  (∀ p ∈ r.top_files.map relpath, p ∉ r.random_files.map relpath) ∧
  (r.random_files.map relpath).Nodup ∧
  r.selected_files.length ≤ max_files

/-- Statement of claim C2: the three level-transition rules of
`calculate_next_level`, plus the rule that a wrong Q1 with a "good" Q2
still downgrades to 0. -/
def C2Statement (q1_correct : Bool) (q2_evaluation : String)
    (current_level max_level : Int) : Prop :=
  ((q1_correct = false ∨ q2_evaluation = "poor") →
    calculate_next_level q1_correct q2_evaluation current_level max_level = 0) ∧
  ((q1_correct = true ∧ q2_evaluation = "good") →
    calculate_next_level q1_correct q2_evaluation current_level max_level
      = min (current_level + 1) max_level) ∧
  ((q1_correct = true ∧ q2_evaluation = "partial") →
    calculate_next_level q1_correct q2_evaluation current_level max_level
      = current_level) ∧
  calculate_next_level false "good" current_level max_level = 0

/-- Statement of the amended claim C3: with `dd` the calendar-date
difference `deadline - date(now)`, the +25 tier fires exactly for
`0 <= dd <= 3` when `now` is at midnight but for `1 <= dd <= 4` otherwise
(and the +15 tier for `4 <= dd <= 7` resp. `5 <= dd <= 8`), because the code
floors the `datetime` difference `strptime(deadline) - now`; the deadline
section contributes exactly that tier to the total score. -/
def C3Statement (f : ScannedFile) (now : PyDateTime) (dl : PyDateTime) : Prop :=
  ((("deadline_3days", _SCORE_DEADLINE_3DAYS) ∈ (calculate_score f now).score_breakdown) ↔
    (if now.sod = 0 then 0 ≤ dl.days - now.days ∧ dl.days - now.days ≤ 3
     else 1 ≤ dl.days - now.days ∧ dl.days - now.days ≤ 4)) ∧
  ((("deadline_7days", _SCORE_DEADLINE_7DAYS) ∈ (calculate_score f now).score_breakdown) ↔
    (if now.sod = 0 then 4 ≤ dl.days - now.days ∧ dl.days - now.days ≤ 7
     else 5 ≤ dl.days - now.days ∧ dl.days - now.days ≤ 8)) ∧
  (calculate_score f now).score =
    (calculate_score { f with metadata := { f.metadata with deadline := "" } } now).score +
      (if (if now.sod = 0 then 0 ≤ dl.days - now.days ∧ dl.days - now.days ≤ 3
           else 1 ≤ dl.days - now.days ∧ dl.days - now.days ≤ 4) then _SCORE_DEADLINE_3DAYS
       else if (if now.sod = 0 then 4 ≤ dl.days - now.days ∧ dl.days - now.days ≤ 7
           else 5 ≤ dl.days - now.days ∧ dl.days - now.days ≤ 8) then _SCORE_DEADLINE_7DAYS
       else 0)

/-- Statement of claim C4: on the scoring path, `top_files` is the first
`top_count` entries of the stable descending ordering of the scored
candidates: the ordering is a permutation of the scored list, is sorted by
non-increasing score, preserves the original relative order of equal scores
(filtering by any score value gives back the original sublist), and every
top entry's score dominates every remaining entry's score. -/
def C4Statement (files : List ScannedFile) (run_count discovery_interval : Int)
    (max_files : Nat) (hist : List String) (now : PyDateTime)
    (oracle : RandomOracle) : Prop :=
  let scored := files.map (fun f => calculate_score f now)
  let sorted := List.mergeSort scored (fun a b => decide (b.score ≤ a.score))
  let tc := min (topCountFor (is_discovery_round run_count discovery_interval)) max_files
  (select_files files run_count discovery_interval max_files hist now oracle).top_files
      = (sorted.take tc).map (fun sf => sf.file) ∧
  sorted.Perm scored ∧
  sorted.Pairwise (fun a b => b.score ≤ a.score) ∧
  (∀ v : Int, sorted.filter (fun sf => sf.score == v) = scored.filter (fun sf => sf.score == v)) ∧
  (∀ x ∈ sorted.take tc, ∀ y ∈ sorted.drop tc, y.score ≤ x.score)

/-- Statement of claim C5: `get_interval_days` clamps the level to the last
table index and never indexes out of bounds, `calculate_next_quiz_date` is
the calendar date of `now` plus that interval formatted as `YYYY-MM-DD`, and
the spec's two worked examples. -/
def C5Statement (level : Int) (tbl : List Int) (now : PyDateTime) : Prop :=
  min level.toNat (tbl.length - 1) < tbl.length ∧
  get_interval_days level (some tbl) = tbl[min level.toNat (tbl.length - 1)]? ∧
  (get_interval_days level (some tbl)).isSome = true ∧
  (∀ k, get_interval_days level (some tbl) = some k →
    calculate_next_quiz_date level (some tbl) now
      = some (formatCivil (daysToCivil (now.days + k)))) ∧
  get_interval_days 100 (some [1, 3, 7]) = some 7 ∧
  calculate_next_quiz_date 3 (some [1, 3, 7, 14, 30, 60]) (mkDatetime 2026 1 10)
    = some "2026-01-24"

/-- Statement of claim C8: the discovery-round test, with its two edge
cases (`run_count = 0` never; a non-positive interval disables discovery). -/
def C8Statement (run_count discovery_interval : Int) : Prop :=
  (is_discovery_round run_count discovery_interval = true ↔
    0 < discovery_interval ∧ 0 < run_count ∧ Int.emod run_count discovery_interval = 0) ∧
  is_discovery_round 0 discovery_interval = false ∧
  is_discovery_round run_count 0 = false ∧
  is_discovery_round run_count (-3) = false

/-- Statement of claim C9: `get_due_topics` reports exactly the history
entries with a non-empty `next_quiz_at` that compares `<=` today, and never
an entry whose `next_quiz_at` is the empty default — even though the empty
string compares `<=` any string. -/
def C9Statement (s : AppState) (today : String) : Prop :=
  (∀ kv ∈ s.quiz_history,
    (mkDueTopic kv ∈ get_due_topics s today ↔
      (kv.2.next_quiz_at ≠ "" ∧ pyStrLe kv.2.next_quiz_at today = true))) ∧
  (∀ d ∈ get_due_topics s today, ∃ kv ∈ s.quiz_history,
    d = mkDueTopic kv ∧ kv.2.next_quiz_at ≠ "" ∧ pyStrLe kv.2.next_quiz_at today = true) ∧
  (∀ kv ∈ s.quiz_history, kv.2.next_quiz_at = "" →
    mkDueTopic kv ∉ get_due_topics s today) ∧
  pyStrLe "" today = true

/-- Statement of claim C7: the short-circuit paths of `select_files` — all
candidates selected verbatim when they fit in `max_files` (independently of
the clock and of the sampling oracle, hence without scoring or randomness),
and the explicit empty result on an empty candidate list. -/
def C7Statement (files : List ScannedFile) (run_count discovery_interval : Int)
    (max_files : Nat) (hist : List String) (now : PyDateTime)
    (oracle : RandomOracle) : Prop :=
  select_files files run_count discovery_interval max_files hist now oracle =
    { selected_files := files, top_files := files, random_files := []
      is_discovery := false, total_candidates := files.length } ∧
  (∀ now2 oracle2,
    select_files files run_count discovery_interval max_files hist now2 oracle2 =
    select_files files run_count discovery_interval max_files hist now oracle) ∧
  select_files [] run_count discovery_interval max_files hist now oracle =
    { selected_files := [], top_files := [], random_files := []
      is_discovery := false, total_candidates := 0 }

/-! ## Concrete example inputs -/

/-- A history entry created with the dataclass defaults (never scheduled). -/
def exEntryA : QuizHistoryEntry :=
  { last_quizzed_at := "", interval_days := 1, level := 0, next_quiz_at := "", results := [] }

/-- A history entry due on 2026-01-04. -/
def exEntryB : QuizHistoryEntry :=
  { last_quizzed_at := "2026-01-01", interval_days := 3, level := 1
    next_quiz_at := "2026-01-04", results := [] }

/-- An example application state with one never-scheduled and one due topic. -/
def exState : AppState :=
  { run_count_a := 0, run_count_b := 0, last_run_at := "", output_folder_path := ""
    random_pick_history := [], pending_quizzes := []
    quiz_history := [("topicA", exEntryA), ("topicB", exEntryB)] }

/-- Metadata whose only populated field is a deadline of 2026-01-10. -/
def exDeadlineMeta : FileMetadata :=
  { relative_path := "notes/today.md", modified_at := none, priority := ""
    deadline := "2026-01-10", unchecked_count := 0 }

/-- A note whose only metadata is a deadline of 2026-01-10. -/
def exDeadlineFile : ScannedFile :=
  { metadata := exDeadlineMeta, content := "" }

/-- Noon of 2026-01-10: the same calendar date as `exDeadlineFile`'s
deadline, with a non-midnight time-of-day component. -/
def exNoonToday : PyDateTime :=
  { days := civilToDays 2026 1 10, sod := 43200 }

/-- Metadata of a second example note, distinct path from
`exDeadlineFile`. -/
def exPlainMeta : FileMetadata :=
  { relative_path := "notes/other.md", modified_at := none, priority := "high"
    deadline := "", unchecked_count := 2 }

/-- A second example note, distinct path from `exDeadlineFile`. -/
def exPlainFile : ScannedFile :=
  { metadata := exPlainMeta, content := "" }

/-- A concrete sampling oracle: `choices` repeats the head of the
population, `sample` returns nothing. -/
def exOracle : RandomOracle :=
  { choices := fun pop _ k =>
      match pop with
      | [] => []
      | a :: _ => List.replicate k a
    sample := fun _ _ => [] }

/-! ## Helper lemmas -/

/-- `List.contains` over a lawful `BEq` decides membership. -/
theorem contains_eq_decide_mem {α : Type} [BEq α] [LawfulBEq α] (l : List α) (a : α) :
    l.contains a = decide (a ∈ l) := by
  simp [List.contains, List.elem_eq_mem]

/-- On the scoring path (non-empty candidates, too many for `max_files`),
`select_files` is the assembly of the named stages. -/
theorem select_files_main (files : List ScannedFile) (run_count discovery_interval : Int)
    (max_files : Nat) (hist : List String) (now : PyDateTime) (oracle : RandomOracle)
    (h0 : files ≠ []) (h1 : ¬ files.length ≤ max_files) :
    select_files files run_count discovery_interval max_files hist now oracle =
      { selected_files := mainTopFiles files run_count discovery_interval max_files now
          ++ mainRandomFiles files run_count discovery_interval max_files hist now oracle
        top_files := mainTopFiles files run_count discovery_interval max_files now
        random_files := mainRandomFiles files run_count discovery_interval max_files hist now oracle
        is_discovery := is_discovery_round run_count discovery_interval
        total_candidates := files.length } := by
  unfold select_files mainRandomFiles mainCands mainTopFiles mainTopPaths
    mainRandomCount mainTopCount mainSorted
  rw [if_neg h0, if_neg h1]

/-- The de-duplication loop only keeps elements of its input. -/
theorem dedupByPathAux_subset (l : List ScannedFile) :
    ∀ (seen : List String), ∀ x ∈ dedupByPathAux seen l, x ∈ l := by
  induction l with
  | nil => intro seen x hx; exact absurd hx (by simp [dedupByPathAux])
  | cons f rest ih =>
    intro seen x hx
    unfold dedupByPathAux at hx
    split_ifs at hx with h
    · exact List.mem_cons_of_mem _ (ih seen x hx)
    · rcases List.mem_cons.mp hx with rfl | hx2
      · exact List.mem_cons_self _ _
      · exact List.mem_cons_of_mem _ (ih _ x hx2)

/-- The de-duplication loop never lengthens the list. -/
theorem dedupByPathAux_length (l : List ScannedFile) :
    ∀ (seen : List String), (dedupByPathAux seen l).length ≤ l.length := by
  induction l with
  | nil => intro seen; simp [dedupByPathAux]
  | cons f rest ih =>
    intro seen
    unfold dedupByPathAux
    split_ifs with h
    · exact le_trans (ih seen) (by simp)
    · simpa using ih (relpath f :: seen)

/-- The de-duplication loop produces pairwise-distinct paths, none of them
already seen. -/
theorem dedupByPathAux_paths (l : List ScannedFile) :
    ∀ (seen : List String), ((dedupByPathAux seen l).map relpath).Nodup ∧
      ∀ p ∈ (dedupByPathAux seen l).map relpath, p ∉ seen := by
  induction l with
  | nil => intro seen; simp [dedupByPathAux]
  | cons f rest ih =>
    intro seen
    unfold dedupByPathAux
    split_ifs with h
    · exact ih seen
    · have hmem : relpath f ∉ seen := by
        rw [contains_eq_decide_mem] at h
        simpa using h
      rcases ih (relpath f :: seen) with ⟨hnd, hnin⟩
      refine ⟨?_, ?_⟩
      · rw [List.map_cons, List.nodup_cons]
        exact ⟨fun hc => (hnin _ hc) (List.mem_cons_self _ _), hnd⟩
      · intro p hp
        rw [List.map_cons] at hp
        rcases List.mem_cons.mp hp with rfl | hp2
        · exact hmem
        · exact fun hs => (hnin p hp2) (List.mem_cons_of_mem _ hs)

/-- Elements of `random_candidates` come from beyond the top region. -/
theorem randomCandidatesOf_subset (sorted : List ScoredFile) (tc : Nat)
    (hist : List String) (rcnt : Nat) :
    ∀ x ∈ randomCandidatesOf sorted tc hist rcnt,
      x ∈ (sorted.drop tc).map (fun sf => sf.file) := by
  intro x hx
  unfold randomCandidatesOf at hx
  dsimp only at hx
  split_ifs at hx with h
  · rcases List.mem_append.mp hx with h1 | h1
    · rcases List.mem_map.mp h1 with ⟨sf, hsf, rfl⟩
      exact List.mem_map.mpr ⟨sf, (List.mem_filter.mp hsf).1, rfl⟩
    · rcases List.mem_map.mp h1 with ⟨sf, hsf, rfl⟩
      exact List.mem_map.mpr ⟨sf, (List.mem_filter.mp hsf).1, rfl⟩
  · rcases List.mem_map.mp hx with ⟨sf, hsf, rfl⟩
    exact List.mem_map.mpr ⟨sf, (List.mem_filter.mp hsf).1, rfl⟩

/-- If the paths beyond the top region are pairwise distinct, so are the
paths of `random_candidates`. -/
theorem randomCandidatesOf_paths_nodup (sorted : List ScoredFile) (tc : Nat)
    (hist : List String) (rcnt : Nat)
    (hdrop : ((sorted.drop tc).map (fun sf => relpath sf.file)).Nodup) :
    ((randomCandidatesOf sorted tc hist rcnt).map relpath).Nodup := by
  unfold randomCandidatesOf
  dsimp only
  have hbase : ∀ (p : ScoredFile → Bool),
      ((((sorted.drop tc).filter p).map (fun sf => sf.file)).map relpath).Nodup := by
    intro p
    rw [List.map_map]
    exact List.Nodup.sublist (List.Sublist.map _ (List.filter_sublist _)) hdrop
  split_ifs with h
  · rw [List.map_append]
    refine List.nodup_append.mpr ⟨hbase _, hbase _, ?_⟩
    intro p hp1 hp2
    rw [List.map_map] at hp1 hp2
    rcases List.mem_map.mp hp1 with ⟨sf1, hsf1, rfl⟩
    rcases List.mem_map.mp hp2 with ⟨sf2, hsf2, heq⟩
    have hc1 := (List.mem_filter.mp hsf1).2
    have hc2 := (List.mem_filter.mp hsf2).2
    simp only [Bool.not_eq_true'] at hc1
    simp only [Bool.and_eq_true] at hc2
    have heq' : relpath sf2.file = relpath sf1.file := heq
    rcases hc2 with ⟨hc2a, -⟩
    rw [heq', hc1] at hc2a
    cases hc2a
  · exact hbase _

/-- Outcomes of the de-dup-and-top-up post-processing stay inside the
candidate pool. -/
theorem randomFilesChoices_subset (cands : List ScannedFile) (tpaths : List String)
    (actual : Nat) (picks : List ScannedFile)
    (hpick : ∀ x ∈ picks, x ∈ cands) :
    ∀ x ∈ randomFilesChoices cands tpaths actual picks, x ∈ cands := by
  intro x hx
  unfold randomFilesChoices dedupByPath at hx
  dsimp only at hx
  split_ifs at hx with h
  · rcases List.mem_append.mp hx with h1 | h1
    · exact hpick x (dedupByPathAux_subset picks [] x h1)
    · exact (List.mem_filter.mp (List.mem_of_mem_take h1)).1
  · exact hpick x (dedupByPathAux_subset picks [] x hx)

/-- The de-dup-and-top-up post-processing yields pairwise-distinct paths
(provided the candidate pool has pairwise-distinct paths). -/
theorem randomFilesChoices_paths_nodup (cands : List ScannedFile) (tpaths : List String)
    (actual : Nat) (picks : List ScannedFile)
    (hcands : (cands.map relpath).Nodup) :
    ((randomFilesChoices cands tpaths actual picks).map relpath).Nodup := by
  unfold randomFilesChoices dedupByPath
  rcases dedupByPathAux_paths picks [] with ⟨hnd, -⟩
  dsimp only
  split_ifs with h
  · rw [List.map_append]
    refine List.nodup_append.mpr ⟨hnd, ?_, ?_⟩
    · exact List.Nodup.sublist
        (List.Sublist.map _ ((List.take_sublist _ _).trans (List.filter_sublist _))) hcands
    · intro p hp1 hp2
      rcases List.mem_map.mp hp2 with ⟨c, hc, rfl⟩
      have hcf := (List.mem_filter.mp (List.mem_of_mem_take hc)).2
      simp only [Bool.and_eq_true, Bool.not_eq_true'] at hcf
      have hseen : relpath c ∈ picks.map relpath := by
        rcases List.mem_map.mp hp1 with ⟨u, hu, hup⟩
        exact hup ▸ List.mem_map.mpr ⟨u, dedupByPathAux_subset picks [] u hu, rfl⟩
      rw [contains_eq_decide_mem] at hcf
      have := hcf.1
      simp only [decide_eq_false_iff_not] at this
      exact this hseen
  · exact hnd

/-- The de-dup-and-top-up post-processing returns at most `actual` files
when given exactly `actual` picks. -/
theorem randomFilesChoices_length (cands : List ScannedFile) (tpaths : List String)
    (actual : Nat) (picks : List ScannedFile)
    (hlen : picks.length = actual) :
    (randomFilesChoices cands tpaths actual picks).length ≤ actual := by
  unfold randomFilesChoices dedupByPath
  have hd : (dedupByPathAux [] picks).length ≤ actual :=
    hlen ▸ dedupByPathAux_length picks []
  dsimp only
  split_ifs with h
  · rw [List.length_append]
    have ht := List.length_take (actual - (dedupByPathAux [] picks).length)
      (List.filter (fun c => !(List.contains (picks.map relpath) (relpath c))
        && !(tpaths.contains (relpath c))) cands)
    omega
  · exact hd

/-- Every weight produced by `_calculate_random_weights` is at least 1. -/
theorem weights_ge_one (l : List ScannedFile) (now : PyDateTime) :
    ∀ w ∈ _calculate_random_weights l now, (1 : ℚ) ≤ w := by
  intro w hw
  unfold _calculate_random_weights at hw
  rcases List.mem_map.mp hw with ⟨f, -, rfl⟩
  cases hm : f.metadata.modified_at with
  | none => norm_num
  | some m =>
    dsimp only
    split_ifs with hd
    · unfold _OLD_FILE_THRESHOLD_DAYS at hd
      unfold _OLD_FILE_WEIGHT_MULTIPLIER
      have h30 : (30 : ℚ) ≤ ((Int.fdiv (now.toSeconds - m.toSeconds) _SECONDS_PER_DAY : Int) : ℚ) := by
        exact_mod_cast hd
      nlinarith
    · exact le_max_left 1 _

/-- The weight total of a non-empty candidate pool is positive, so the
`ValueError` fallback of `select_files` is unreachable. -/
theorem weights_sum_pos (l : List ScannedFile) (now : PyDateTime) (h : l ≠ []) :
    ¬ (_calculate_random_weights l now).sum ≤ 0 := by
  have hne : _calculate_random_weights l now ≠ [] := by
    unfold _calculate_random_weights
    simpa using h
  have := List.sum_pos (_calculate_random_weights l now)
    (fun x hx => lt_of_lt_of_le (by norm_num) (weights_ge_one l now x hx)) hne
  linarith

/-- The random-pick stage: every pick comes from the candidate pool, the
picked paths are pairwise distinct (for a pool of distinct paths), and at
most `random_count` files are picked — for every oracle satisfying the
`random.choices` contract. -/
theorem mainRandomFiles_spec (files : List ScannedFile) (run_count discovery_interval : Int)
    (max_files : Nat) (hist : List String) (now : PyDateTime) (oracle : RandomOracle)
    (hc : ChoicesContract oracle)
    (hcands_nodup : ((mainCands files run_count discovery_interval max_files hist now).map relpath).Nodup) :
    (∀ x ∈ mainRandomFiles files run_count discovery_interval max_files hist now oracle,
      x ∈ mainCands files run_count discovery_interval max_files hist now) ∧
    ((mainRandomFiles files run_count discovery_interval max_files hist now oracle).map relpath).Nodup ∧
    (mainRandomFiles files run_count discovery_interval max_files hist now oracle).length
      ≤ mainRandomCount run_count discovery_interval max_files := by
  unfold mainRandomFiles
  by_cases hg : (mainCands files run_count discovery_interval max_files hist now ≠ [] ∧
      0 < mainRandomCount run_count discovery_interval max_files)
  · rw [if_pos hg, if_neg (weights_sum_pos _ now hg.1)]
    obtain ⟨hlen, hmem⟩ := hc (mainCands files run_count discovery_interval max_files hist now)
      (_calculate_random_weights (mainCands files run_count discovery_interval max_files hist now) now)
      (min (mainRandomCount run_count discovery_interval max_files)
        (mainCands files run_count discovery_interval max_files hist now).length) hg.1
    exact ⟨randomFilesChoices_subset _ _ _ _ hmem,
      randomFilesChoices_paths_nodup _ _ _ _ hcands_nodup,
      le_trans (randomFilesChoices_length _ _ _ _ hlen) (min_le_left _ _)⟩
  · rw [if_neg hg]
    exact ⟨by simp, by simp, by simp⟩

/-- The breakdown of `calculate_score` is the four section breakdowns in
source order. -/
theorem calculate_score_breakdown (f : ScannedFile) (now : PyDateTime) :
    (calculate_score f now).score_breakdown =
      (scoreRecency f.metadata now).2 ++ (scorePriorityOf f.metadata).2
        ++ (scoreDeadline f.metadata now).2 ++ (scoreChecklist f.metadata).2 := rfl

/-- The score of `calculate_score` is the sum of the four section scores. -/
theorem calculate_score_score (f : ScannedFile) (now : PyDateTime) :
    (calculate_score f now).score =
      (scoreRecency f.metadata now).1 + (scorePriorityOf f.metadata).1
        + (scoreDeadline f.metadata now).1 + (scoreChecklist f.metadata).1 := rfl

/-- `calculate_score` carries the input file through unchanged. -/
theorem calculate_score_file (f : ScannedFile) (now : PyDateTime) :
    (calculate_score f now).file = f := rfl

/-- A breakdown entry whose key is none of the recency, priority or
checklist keys is in `calculate_score`'s breakdown exactly when the deadline
section produced it. -/
theorem mem_score_breakdown_iff_deadline (f : ScannedFile) (now : PyDateTime)
    (e : String × Int)
    (h1 : e.1 ≠ "modified_today") (h2 : e.1 ≠ "modified_week")
    (h3 : e.1 ≠ "modified_month") (h4 : e.1 ≠ "priority_high")
    (h5 : e.1 ≠ "priority_medium") (h6 : e.1 ≠ "has_unchecked") :
    (e ∈ (calculate_score f now).score_breakdown ↔ e ∈ (scoreDeadline f.metadata now).2) := by
  have hA : e ∉ (scoreRecency f.metadata now).2 := by
    unfold scoreRecency
    cases f.metadata.modified_at with
    | none => simp
    | some m =>
      dsimp only
      split_ifs <;> intro hmem
      · rw [List.mem_singleton] at hmem
        exact h1 (congrArg Prod.fst hmem)
      · rw [List.mem_singleton] at hmem
        exact h2 (congrArg Prod.fst hmem)
      · rw [List.mem_singleton] at hmem
        exact h3 (congrArg Prod.fst hmem)
      · simp at hmem
  have hB : e ∉ (scorePriorityOf f.metadata).2 := by
    unfold scorePriorityOf
    dsimp only
    split_ifs <;> intro hmem
    · rw [List.mem_singleton] at hmem
      exact h4 (congrArg Prod.fst hmem)
    · rw [List.mem_singleton] at hmem
      exact h5 (congrArg Prod.fst hmem)
    · simp at hmem
  have hC : e ∉ (scoreChecklist f.metadata).2 := by
    unfold scoreChecklist
    split_ifs <;> intro hmem
    · rw [List.mem_singleton] at hmem
      exact h6 (congrArg Prod.fst hmem)
    · simp at hmem
  rw [calculate_score_breakdown]
  simp only [List.mem_append]
  tauto

/-- An empty deadline string contributes nothing in the deadline section. -/
theorem scoreDeadline_empty (meta : FileMetadata) (now : PyDateTime)
    (h : meta.deadline = "") : scoreDeadline meta now = (0, []) := by
  unfold scoreDeadline
  rw [if_neg]
  simp [h]

/-- When the deadline parses, the deadline section is determined by the
floored day difference `days_until`. -/
theorem scoreDeadline_parsed (meta : FileMetadata) (now : PyDateTime) (dl : PyDateTime)
    (hne : meta.deadline ≠ "") (hparse : strptimeYmd meta.deadline = some dl) :
    scoreDeadline meta now =
      (if 0 ≤ Int.fdiv (dl.toSeconds - now.toSeconds) _SECONDS_PER_DAY ∧
          Int.fdiv (dl.toSeconds - now.toSeconds) _SECONDS_PER_DAY ≤ 3 then
        (_SCORE_DEADLINE_3DAYS, [("deadline_3days", _SCORE_DEADLINE_3DAYS)])
      else if 0 ≤ Int.fdiv (dl.toSeconds - now.toSeconds) _SECONDS_PER_DAY ∧
          Int.fdiv (dl.toSeconds - now.toSeconds) _SECONDS_PER_DAY ≤ 7 then
        (_SCORE_DEADLINE_7DAYS, [("deadline_7days", _SCORE_DEADLINE_7DAYS)])
      else (0, [])) := by
  unfold scoreDeadline
  rw [if_pos hne, hparse]

/-- A parsed `strptime` result sits at midnight of its calendar day. -/
theorem strptimeYmd_sod (s : String) (dl : PyDateTime)
    (hparse : strptimeYmd s = some dl) : dl.sod = 0 := by
  unfold strptimeYmd at hparse
  rcases Option.map_eq_some'.mp hparse with ⟨ymd, -, hmk⟩
  rw [← hmk]
  rfl

/-! ## Claims -/

/-- The concrete head-repeating oracle satisfies the `random.choices`
contract. -/
theorem exOracle_contract : ChoicesContract exOracle := by
  intro pop w k hne
  cases pop with
  | nil => exact absurd rfl hne
  | cons a as =>
    refine ⟨List.length_replicate _ _, fun x hx => ?_⟩
    rw [(List.mem_replicate.mp hx).2]
    exact List.mem_cons_self _ _

/-- C1: for candidates with pairwise-distinct relative paths and any
`max_files >= 1`, run counter, discovery interval, history, clock and
sampling outcome, `select_files` returns `selected = top ++ random` with no
path in both halves, no path twice among the random picks, and at most
`max_files` selections. -/
theorem claim_C1 (files : List ScannedFile) (run_count discovery_interval : Int)
    (max_files : Nat) (hist : List String) (now : PyDateTime) (oracle : RandomOracle)
    (hnodup : (files.map relpath).Nodup) (_hmax : 1 ≤ max_files)
    (hc : ChoicesContract oracle) :
    C1Statement (select_files files run_count discovery_interval max_files hist now oracle)
      max_files := by
  by_cases h0 : files = []
  · subst h0
    unfold select_files
    rw [if_pos rfl]
    exact ⟨rfl, by simp, by simp, by simp⟩
  by_cases h1 : files.length ≤ max_files
  · unfold select_files
    rw [if_neg h0, if_pos h1]
    exact ⟨(List.append_nil files).symm, by simp, by simp, h1⟩
  rw [select_files_main files run_count discovery_interval max_files hist now oracle h0 h1]
  have hpaths_eq : ((files.map (fun f => calculate_score f now)).map (fun sf => relpath sf.file))
      = files.map relpath := by
    rw [List.map_map]
    rfl
  have hperm : (mainSorted files now).Perm (files.map (fun f => calculate_score f now)) :=
    List.mergeSort_perm _ _
  have hsortedPaths : ((mainSorted files now).map (fun sf => relpath sf.file)).Nodup := by
    rw [(hperm.map (fun sf => relpath sf.file)).nodup_iff, hpaths_eq]
    exact hnodup
  have hsplitN : (((mainSorted files now).take (mainTopCount run_count discovery_interval max_files)).map
        (fun sf => relpath sf.file)
      ++ ((mainSorted files now).drop (mainTopCount run_count discovery_interval max_files)).map
        (fun sf => relpath sf.file)).Nodup := by
    rw [← List.map_append, List.take_append_drop]
    exact hsortedPaths
  rcases List.nodup_append.mp hsplitN with ⟨-, hDN, hTD⟩
  have hcands_nodup :
      ((mainCands files run_count discovery_interval max_files hist now).map relpath).Nodup :=
    randomCandidatesOf_paths_nodup _ _ _ _ hDN
  obtain ⟨hRsub, hRnodup, hRlen⟩ := mainRandomFiles_spec files run_count discovery_interval
    max_files hist now oracle hc hcands_nodup
  refine ⟨rfl, ?_, hRnodup, ?_⟩
  · intro p hp hpr
    rcases List.mem_map.mp hpr with ⟨x, hxR, rfl⟩
    have hxdrop := randomCandidatesOf_subset _ _ _ _ _ (hRsub x hxR)
    rcases List.mem_map.mp hxdrop with ⟨sf, hsf, hxf⟩
    have hpdrop : relpath x ∈
        ((mainSorted files now).drop (mainTopCount run_count discovery_interval max_files)).map
          (fun sf => relpath sf.file) :=
      List.mem_map.mpr ⟨sf, hsf, by rw [hxf]⟩
    have hptake : relpath x ∈
        ((mainSorted files now).take (mainTopCount run_count discovery_interval max_files)).map
          (fun sf => relpath sf.file) := by
      unfold mainTopFiles at hp
      rw [List.map_map] at hp
      exact hp
    exact hTD hptake hpdrop
  · rw [List.length_append]
    have hTlen : (mainTopFiles files run_count discovery_interval max_files now).length
        ≤ mainTopCount run_count discovery_interval max_files := by
      unfold mainTopFiles
      rw [List.length_map, List.length_take]
      exact min_le_left _ _
    have htc : mainTopCount run_count discovery_interval max_files ≤ max_files :=
      min_le_right _ _
    have hrc : mainRandomCount run_count discovery_interval max_files
        ≤ max_files - mainTopCount run_count discovery_interval max_files :=
      min_le_right _ _
    omega

/-- Witness for C1 on a two-note vault squeezed into `max_files = 1` with
the head-repeating oracle. -/
theorem claim_C1_witness :
    (([exDeadlineFile, exPlainFile] : List ScannedFile).map relpath).Nodup ∧
    1 ≤ 1 ∧ ChoicesContract exOracle ∧
    C1Statement (select_files [exDeadlineFile, exPlainFile] 1 5 1 [] exNoonToday exOracle) 1 :=
  ⟨by decide, by decide, exOracle_contract,
    claim_C1 [exDeadlineFile, exPlainFile] 1 5 1 [] exNoonToday exOracle
      (by decide) (by decide) exOracle_contract⟩

/-- C2: `calculate_next_level` downgrades to 0 on a wrong Q1 or a "poor"
Q2 (including the wrong-Q1-with-"good"-Q2 case), upgrades to
`min(current_level + 1, max_level)` on a correct Q1 with "good", and holds
the level on a correct Q1 with "partial". -/
theorem claim_C2 (q1_correct : Bool) (q2_evaluation : String)
    (current_level max_level : Int)
    (hq2 : q2_evaluation = "good" ∨ q2_evaluation = "partial" ∨ q2_evaluation = "poor")
    (_hcl0 : 0 ≤ current_level) (_hclm : current_level ≤ max_level) :
    C2Statement q1_correct q2_evaluation current_level max_level := by
  unfold C2Statement calculate_next_level
  rcases hq2 with h | h | h <;> subst h <;> cases q1_correct <;> simp

/-- Witness for C2 at `(True, "good", 0, 5)`. -/
theorem claim_C2_witness :
    ("good" = "good" ∨ "good" = "partial" ∨ "good" = "poor") ∧
    (0 : Int) ≤ 0 ∧ (0 : Int) ≤ 5 ∧ C2Statement true "good" 0 5 :=
  ⟨Or.inl rfl, by decide, by decide, claim_C2 true "good" 0 5 (Or.inl rfl) (by decide) (by decide)⟩

/-- C10: with a correct Q1, any `q2_evaluation` outside the enumerated
values — not only "partial" — takes the hold branch and returns the current
level unchanged; the function does not validate the three-value domain. -/
theorem claim_C10 (q2_evaluation : String) (current_level max_level : Int)
    (h1 : q2_evaluation ≠ "poor") (h2 : q2_evaluation ≠ "good") :
    calculate_next_level true q2_evaluation current_level max_level = current_level := by
  unfold calculate_next_level
  simp [h1, h2]

/-- Witness for C10 at the out-of-domain evaluation `"excellent"` (and a
`current_level` above `max_level`, which the hold branch also preserves). -/
theorem claim_C10_witness :
    ("excellent" : String) ≠ "poor" ∧ ("excellent" : String) ≠ "good" ∧
    calculate_next_level true "excellent" 7 5 = 7 :=
  ⟨by decide, by decide, claim_C10 "excellent" 7 5 (by decide) (by decide)⟩

/-- C3 counterexample: the deadline `2026-01-10` parses and equals the
calendar date of `now` (noon of 2026-01-10), so the claim demands a +25
`deadline_3days` contribution; the code computes
`days_until = floor(-12h / 24h) = -1` and contributes nothing. -/
theorem claim_C3_counterexample :
    strptimeYmd exDeadlineFile.metadata.deadline = some (mkDatetime 2026 1 10) ∧
    exNoonToday.days = (mkDatetime 2026 1 10).days ∧
    0 < exNoonToday.sod ∧ exNoonToday.sod < 86400 ∧
    ("deadline_3days", _SCORE_DEADLINE_3DAYS) ∉
      (calculate_score exDeadlineFile exNoonToday).score_breakdown ∧
    (calculate_score exDeadlineFile exNoonToday).score_breakdown = [] ∧
    (calculate_score exDeadlineFile exNoonToday).score = 0 := by
  decide

/-- C3 (amended): for a parsing deadline, the +25 tier fires exactly when
the floored difference lands in `[0, 3]` — in calendar terms, for a
deadline `0..3` days ahead when `now` is at midnight but `1..4` days ahead
otherwise (so a deadline equal to today's date scores +25 only at
midnight); likewise +15 for `[4, 7]` shifted to `5..8`; the deadline
section contributes exactly that tier to the total score. -/
theorem claim_C3_amended (f : ScannedFile) (now dl : PyDateTime)
    (hparse : strptimeYmd f.metadata.deadline = some dl) (hsod : now.sod < 86400) :
    C3Statement f now dl := by
  have hne : f.metadata.deadline ≠ "" := by
    intro h
    have hz : strptimeYmd "" = none := by decide
    rw [h, hz] at hparse
    cases hparse
  have hdl0 : dl.sod = 0 := strptimeYmd_sod _ _ hparse
  have hsd := scoreDeadline_parsed f.metadata now dl hne hparse
  have hduval : Int.fdiv (dl.toSeconds - now.toSeconds) _SECONDS_PER_DAY =
      (dl.days * 86400 - (now.days * 86400 + (now.sod : Int))) / 86400 := by
    unfold _SECONDS_PER_DAY
    rw [Int.fdiv_eq_ediv _ (by norm_num)]
    unfold PyDateTime.toSeconds
    rw [hdl0]
    norm_num
  have hc3 : (0 ≤ Int.fdiv (dl.toSeconds - now.toSeconds) _SECONDS_PER_DAY ∧
      Int.fdiv (dl.toSeconds - now.toSeconds) _SECONDS_PER_DAY ≤ 3) ↔
      (if now.sod = 0 then 0 ≤ dl.days - now.days ∧ dl.days - now.days ≤ 3
       else 1 ≤ dl.days - now.days ∧ dl.days - now.days ≤ 4) := by
    rw [hduval]
    split_ifs <;> omega
  have hc7 : (¬(0 ≤ Int.fdiv (dl.toSeconds - now.toSeconds) _SECONDS_PER_DAY ∧
        Int.fdiv (dl.toSeconds - now.toSeconds) _SECONDS_PER_DAY ≤ 3) ∧
      (0 ≤ Int.fdiv (dl.toSeconds - now.toSeconds) _SECONDS_PER_DAY ∧
        Int.fdiv (dl.toSeconds - now.toSeconds) _SECONDS_PER_DAY ≤ 7)) ↔
      (if now.sod = 0 then 4 ≤ dl.days - now.days ∧ dl.days - now.days ≤ 7
       else 5 ≤ dl.days - now.days ∧ dl.days - now.days ≤ 8) := by
    rw [hduval]
    split_ifs <;> omega
  have hm3 : (("deadline_3days", _SCORE_DEADLINE_3DAYS) ∈
      (calculate_score f now).score_breakdown ↔
      (0 ≤ Int.fdiv (dl.toSeconds - now.toSeconds) _SECONDS_PER_DAY ∧
        Int.fdiv (dl.toSeconds - now.toSeconds) _SECONDS_PER_DAY ≤ 3)) := by
    rw [mem_score_breakdown_iff_deadline f now _ (by decide) (by decide) (by decide)
      (by decide) (by decide) (by decide), hsd]
    split_ifs with ha hb
    · simp [ha]
    · simp only [ha, iff_false]
      decide
    · simp [ha]
  have hm7 : (("deadline_7days", _SCORE_DEADLINE_7DAYS) ∈
      (calculate_score f now).score_breakdown ↔
      (¬(0 ≤ Int.fdiv (dl.toSeconds - now.toSeconds) _SECONDS_PER_DAY ∧
          Int.fdiv (dl.toSeconds - now.toSeconds) _SECONDS_PER_DAY ≤ 3) ∧
        (0 ≤ Int.fdiv (dl.toSeconds - now.toSeconds) _SECONDS_PER_DAY ∧
          Int.fdiv (dl.toSeconds - now.toSeconds) _SECONDS_PER_DAY ≤ 7))) := by
    rw [mem_score_breakdown_iff_deadline f now _ (by decide) (by decide) (by decide)
      (by decide) (by decide) (by decide), hsd]
    split_ifs with ha hb
    · simp only [iff_def]
      constructor
      · intro hmem
        exact absurd hmem (by decide)
      · rintro ⟨hna, -⟩
        exact absurd ha hna
    · exact ⟨fun _ => ⟨ha, hb⟩, fun _ => List.mem_singleton.mpr rfl⟩
    · simp [ha, hb]
  have hbase : (calculate_score { f with metadata := { f.metadata with deadline := "" } } now).score
      = (scoreRecency f.metadata now).1 + (scorePriorityOf f.metadata).1 + 0
        + (scoreChecklist f.metadata).1 := by
    rw [calculate_score_score]
    rw [scoreDeadline_empty ({ f.metadata with deadline := "" }) now rfl]
    rfl
  refine ⟨hm3.trans hc3, hm7.trans hc7, ?_⟩
  rw [calculate_score_score, hbase, hsd]
  by_cases h3 : (0 ≤ Int.fdiv (dl.toSeconds - now.toSeconds) _SECONDS_PER_DAY ∧
      Int.fdiv (dl.toSeconds - now.toSeconds) _SECONDS_PER_DAY ≤ 3)
  · rw [if_pos h3, if_pos (hc3.mp h3)]
    ring
  · rw [if_neg h3, if_neg (fun hcal => h3 (hc3.mpr hcal))]
    by_cases h7 : (0 ≤ Int.fdiv (dl.toSeconds - now.toSeconds) _SECONDS_PER_DAY ∧
        Int.fdiv (dl.toSeconds - now.toSeconds) _SECONDS_PER_DAY ≤ 7)
    · rw [if_pos h7, if_pos (hc7.mp ⟨h3, h7⟩)]
      ring
    · rw [if_neg h7, if_neg (fun hcal => h7 (hc7.mpr hcal).2)]
      ring

/-- Witness for the amended C3 at `exDeadlineFile` with `now` at midnight of
the deadline's own date. -/
theorem claim_C3_witness :
    strptimeYmd exDeadlineFile.metadata.deadline = some (mkDatetime 2026 1 10) ∧
    (mkDatetime 2026 1 10).sod < 86400 ∧
    C3Statement exDeadlineFile (mkDatetime 2026 1 10) (mkDatetime 2026 1 10) :=
  ⟨by decide, by decide,
    claim_C3_amended exDeadlineFile (mkDatetime 2026 1 10) (mkDatetime 2026 1 10)
      (by decide) (by decide)⟩

/-- C8: `is_discovery_round` is true exactly for a positive interval, a
positive run count, and a run count divisible by the interval; run count 0
is never a discovery round and non-positive intervals disable discovery
without any division. -/
theorem claim_C8 (run_count discovery_interval : Int) :
    C8Statement run_count discovery_interval := by
  unfold C8Statement is_discovery_round
  refine ⟨?_, ?_, ?_, ?_⟩
  · split_ifs with h
    · simp only [Bool.false_eq_true, false_iff]
      rintro ⟨h1, -, -⟩
      omega
    · simp only [Bool.and_eq_true, decide_eq_true_eq, beq_iff_eq]
      constructor
      · rintro ⟨ha, hb⟩
        exact ⟨by omega, ha, hb⟩
      · rintro ⟨-, ha, hb⟩
        exact ⟨ha, hb⟩
  · split_ifs <;> simp
  · simp
  · simp

/-- C6: `update_after_scoring` never writes to the history store — the
state (its `quiz_history` map and `pending_quizzes` list included) is
returned untouched; only the computed update record is produced. -/
theorem claim_C6 (s : AppState) (topic_key : String) (q1_correct : Bool)
    (q2_evaluation : String) (sr_config : SpacedRepetitionConfig) (now : PyDateTime) :
    (update_after_scoring s topic_key q1_correct q2_evaluation sr_config now).2 = s ∧
    (update_after_scoring s topic_key q1_correct q2_evaluation sr_config now).2.quiz_history
      = s.quiz_history ∧
    (update_after_scoring s topic_key q1_correct q2_evaluation sr_config now).2.pending_quizzes
      = s.pending_quizzes := by
  unfold update_after_scoring get_quiz_history
  dsimp only
  split <;> exact ⟨rfl, rfl, rfl⟩

/-- C4: with more candidates than `max_files`, `select_files` sorts the
scored candidates stably by descending score and takes the first
`top_count` as `top_files`; the ordering is a permutation, is sorted by
non-increasing score, ties keep their input order, and every top score
dominates every dropped score. -/
theorem claim_C4 (files : List ScannedFile) (run_count discovery_interval : Int)
    (max_files : Nat) (hist : List String) (now : PyDateTime) (oracle : RandomOracle)
    (h : max_files < files.length) :
    C4Statement files run_count discovery_interval max_files hist now oracle := by
  have h0 : files ≠ [] := by
    rintro rfl
    exact absurd h (by simp)
  have h1 : ¬ files.length ≤ max_files := by omega
  have htrans : ∀ (a b c : ScoredFile), decide (b.score ≤ a.score) = true →
      decide (c.score ≤ b.score) = true → decide (c.score ≤ a.score) = true := by
    intro a b c hab hbc
    simp only [decide_eq_true_eq] at hab hbc ⊢
    omega
  have htotal : ∀ (a b : ScoredFile),
      (decide (b.score ≤ a.score) || decide (a.score ≤ b.score)) = true := by
    intro a b
    simp only [Bool.or_eq_true, decide_eq_true_eq]
    omega
  unfold C4Statement
  dsimp only
  have hpw : (List.mergeSort (files.map (fun f => calculate_score f now))
      (fun a b => decide (b.score ≤ a.score))).Pairwise (fun a b => b.score ≤ a.score) :=
    (List.sorted_mergeSort htrans htotal
      (files.map (fun f => calculate_score f now))).imp (fun hab => of_decide_eq_true hab)
  refine ⟨?_, List.mergeSort_perm _ _, hpw, ?_, ?_⟩
  · rw [select_files_main files run_count discovery_interval max_files hist now oracle h0 h1]
    rfl
  · intro v
    have hsub : List.Sublist
        ((files.map (fun f => calculate_score f now)).filter (fun sf => sf.score == v))
        (List.mergeSort (files.map (fun f => calculate_score f now))
          (fun a b => decide (b.score ≤ a.score))) := by
      apply List.sublist_mergeSort htrans htotal ?_ (List.filter_sublist _)
      apply List.pairwise_of_forall_mem_list
      intro a ha b hb
      have hva : a.score = v := by simpa using (List.mem_filter.mp ha).2
      have hvb : b.score = v := by simpa using (List.mem_filter.mp hb).2
      simp [hva, hvb]
    have hfil : ((files.map (fun f => calculate_score f now)).filter (fun sf => sf.score == v)).filter
        (fun sf => sf.score == v)
        = (files.map (fun f => calculate_score f now)).filter (fun sf => sf.score == v) :=
      List.filter_eq_self.mpr (fun a ha => (List.mem_filter.mp ha).2)
    have h2 := List.Sublist.filter (fun sf => sf.score == v) hsub
    rw [hfil] at h2
    have hlen : ((List.mergeSort (files.map (fun f => calculate_score f now))
          (fun a b => decide (b.score ≤ a.score))).filter (fun sf => sf.score == v)).length
        = ((files.map (fun f => calculate_score f now)).filter (fun sf => sf.score == v)).length :=
      ((List.mergeSort_perm _ _).filter _).length_eq
    exact (h2.eq_of_length hlen.symm).symm
  · have hpw2 := hpw
    rw [← List.take_append_drop
      (min (topCountFor (is_discovery_round run_count discovery_interval)) max_files)
      (List.mergeSort (files.map (fun f => calculate_score f now))
        (fun a b => decide (b.score ≤ a.score)))] at hpw2
    exact (List.pairwise_append.mp hpw2).2.2

/-- Witness for C4 on a two-note vault squeezed into `max_files = 1`. -/
theorem claim_C4_witness :
    1 < ([exDeadlineFile, exPlainFile] : List ScannedFile).length ∧
    C4Statement [exDeadlineFile, exPlainFile] 1 5 1 [] exNoonToday exOracle :=
  ⟨by decide,
    claim_C4 [exDeadlineFile, exPlainFile] 1 5 1 [] exNoonToday exOracle (by decide)⟩

/-- C5: `get_interval_days` reads the table at `min(level, len - 1)` (in
bounds for every non-empty table and `level >= 0`), and
`calculate_next_quiz_date` formats the calendar date of `now` plus that
interval; includes the spec's worked examples. -/
theorem claim_C5 (level : Int) (tbl : List Int) (now : PyDateTime)
    (h0 : 0 ≤ level) (hne : tbl ≠ []) : C5Statement level tbl now := by
  have hlen : 1 ≤ tbl.length := List.length_pos.mpr hne
  have hidx : min level.toNat (tbl.length - 1) < tbl.length := by omega
  have hnn : 0 ≤ min level ((tbl.length : Int) - 1) := by omega
  have hcast : (min level ((tbl.length : Int) - 1)).toNat = min level.toNat (tbl.length - 1) := by
    omega
  have hgid : get_interval_days level (some tbl) = tbl[min level.toNat (tbl.length - 1)]? := by
    unfold get_interval_days pyIndex
    simp only [Option.getD_some]
    rw [if_pos hnn, hcast]
  refine ⟨hidx, hgid, ?_, ?_, by decide, by decide⟩
  · rw [hgid, List.getElem?_eq_getElem hidx]
    rfl
  · intro k hk
    unfold calculate_next_quiz_date
    simp only [Option.getD_some]
    have hpi : pyIndex tbl (min level ((tbl.length : Int) - 1)) = some k := by
      unfold get_interval_days at hk
      simp only [Option.getD_some] at hk
      exact hk
    rw [hpi]
    rfl

/-- Witness for C5 at level 100 over the table `[1, 3, 7]`. -/
theorem claim_C5_witness :
    (0 : Int) ≤ 100 ∧ ([1, 3, 7] : List Int) ≠ [] ∧
    C5Statement 100 [1, 3, 7] (mkDatetime 2026 1 10) :=
  ⟨by decide, by decide, claim_C5 100 [1, 3, 7] (mkDatetime 2026 1 10) (by decide) (by decide)⟩

/-- C9: for a history store with (dict-)unique topic keys, `get_due_topics`
returns exactly the entries whose `next_quiz_at` is non-empty and compares
`<=` today; an entry with the empty-string default is never due, although
the empty string compares `<=` every string. -/
theorem claim_C9 (s : AppState) (today : String)
    (hkeys : (s.quiz_history.map Prod.fst).Nodup) : C9Statement s today := by
  have hmem : ∀ kv ∈ s.quiz_history,
      (mkDueTopic kv ∈ get_due_topics s today ↔
        (kv.2.next_quiz_at ≠ "" ∧ pyStrLe kv.2.next_quiz_at today = true)) := by
    intro kv hkv
    constructor
    · intro hd
      rcases List.mem_filterMap.mp hd with ⟨kv2, hkv2, heq⟩
      by_cases hc : (kv2.2.next_quiz_at ≠ "" && pyStrLe kv2.2.next_quiz_at today) = true
      · rw [if_pos hc] at heq
        have hkey : kv2.1 = kv.1 := congrArg DueTopic.topic_key (Option.some.inj heq)
        have : kv2 = kv := List.inj_on_of_nodup_map hkeys hkv2 hkv hkey
        subst this
        simpa using hc
      · rw [if_neg hc] at heq
        exact absurd heq (by simp)
    · rintro ⟨h1, h2⟩
      refine List.mem_filterMap.mpr ⟨kv, hkv, ?_⟩
      rw [if_pos (by simp [h1, h2])]
  refine ⟨hmem, ?_, ?_, rfl⟩
  · intro d hd
    rcases List.mem_filterMap.mp hd with ⟨kv, hkv, heq⟩
    by_cases hc : (kv.2.next_quiz_at ≠ "" && pyStrLe kv.2.next_quiz_at today) = true
    · rw [if_pos hc] at heq
      simp only [Bool.and_eq_true, decide_eq_true_eq] at hc
      exact ⟨kv, hkv, (Option.some.inj heq).symm, hc.1, hc.2⟩
    · rw [if_neg hc] at heq
      exact absurd heq (by simp)
  · intro kv hkv hempty hdue
    exact absurd ((hmem kv hkv).mp hdue).1 (by simp [hempty])

/-- C7: when all candidates fit in `max_files`, `select_files` returns them
all verbatim as both `selected_files` and `top_files` with no random picks
and `is_discovery = False`, independently of the clock and the sampling
oracle (so without scoring or randomness) and even when the run counter
says discovery; an empty candidate list yields the explicit empty result. -/
theorem claim_C7 (files : List ScannedFile) (run_count discovery_interval : Int)
    (max_files : Nat) (hist : List String) (now : PyDateTime) (oracle : RandomOracle)
    (hne : files ≠ []) (hle : files.length ≤ max_files) :
    C7Statement files run_count discovery_interval max_files hist now oracle := by
  have hsmall : ∀ (n2 : PyDateTime) (o2 : RandomOracle),
      select_files files run_count discovery_interval max_files hist n2 o2 =
        { selected_files := files, top_files := files, random_files := []
          is_discovery := false, total_candidates := files.length } := by
    intro n2 o2
    unfold select_files
    rw [if_neg hne, if_pos hle]
  refine ⟨hsmall now oracle, ?_, ?_⟩
  · intro n2 o2
    rw [hsmall n2 o2, hsmall now oracle]
  · unfold select_files
    rw [if_pos rfl]

/-- Witness for C7 on a two-note vault under `max_files = 20`, with a run
counter that would otherwise trigger a discovery round. -/
theorem claim_C7_witness :
    ([exDeadlineFile, exPlainFile] : List ScannedFile) ≠ [] ∧
    ([exDeadlineFile, exPlainFile] : List ScannedFile).length ≤ 20 ∧
    C7Statement [exDeadlineFile, exPlainFile] 5 5 20 [] exNoonToday exOracle :=
  ⟨by decide, by decide,
    claim_C7 [exDeadlineFile, exPlainFile] 5 5 20 [] exNoonToday exOracle
      (by decide) (by decide)⟩

/-- Witness for C9 on the example store with one never-scheduled entry and
one due entry. -/
theorem claim_C9_witness :
    (exState.quiz_history.map Prod.fst).Nodup ∧ C9Statement exState "2026-01-15" :=
  ⟨by decide, claim_C9 exState "2026-01-15" (by decide)⟩

end GhcpSdkNotify
